import Mathlib

/-!
# Verification of the greenhouse-pi control and logging core

A shallow embedding, in Lean 4, of the decision logic of the greenhouse
controller (`greenhouse_manager.py`, `driver.py`) and of the daily data
logger (`greenhouse_data_logger.py`), together with proofs of the
behavioural properties stated in the specification.

Modelling conventions:
* temperatures, humidities, pressures are rationals (`ℚ`) — the Python
  floats carry no rounding-relevant arithmetic in the properties below;
* times of day are `ℕ` (seconds since midnight); Python `datetime.time`
  comparison is the induced linear order;
* instants (epoch timestamps, file dates) are `ℤ` seconds;
* the side-effecting hardware / filesystem calls are passed in as explicit
  outcome values, and the `print` logging is returned as explicit event
  lists, so every function is pure and executable.
-/

namespace GreenhousePi

/-! ## Temperature control (`GreenhouseManager.control_temperature`) -/

/-- The `temperature_control` block of `GreenhouseManagerSettings`
(`greenhouse_manager_settings.py`, class `TemperatureControl`). -/
structure TemperatureControl where
  target_temp_celsius : ℚ
  temp_tolerance_celsius : ℚ
  heater_enabled : Bool
  vent_fan_enabled : Bool
  deriving Repr, DecidableEq

/-- The `_state` flags of the heater and vent-fan `RFOutlet`s, as read by
`control_temperature` through `get_state()`. -/
structure TempOutlets where
  heater : Bool
  vent_fan : Bool
  deriving Repr, DecidableEq

/-- `GreenhouseManager.control_temperature` (greenhouse_manager.py lines
245–275): hysteresis control of heater and vent fan.  The heater branch:
`if temperature < target - tolerance: if not heater.get_state(): turn_on`
`elif temperature > target: if heater.get_state(): turn_off`, guarded by
`heater_enabled`; the vent-fan branch is the mirrored band guarded by
`vent_fan_enabled`.  `turn_on`/`turn_off` set the outlet `_state` flag. -/
def control_temperature (tc : TemperatureControl) (temperature : ℚ)
    (s : TempOutlets) : TempOutlets :=
  let s1 :=
    if tc.heater_enabled then
      if temperature < tc.target_temp_celsius - tc.temp_tolerance_celsius then
        if !s.heater then { s with heater := true } else s
      else if temperature > tc.target_temp_celsius then
        if s.heater then { s with heater := false } else s
      else s
    else s
  if tc.vent_fan_enabled then
    if temperature > tc.target_temp_celsius + tc.temp_tolerance_celsius then
      if !s1.vent_fan then { s1 with vent_fan := true } else s1
    else if temperature < tc.target_temp_celsius then
      if s1.vent_fan then { s1 with vent_fan := false } else s1
    else s1
  else s1

/-! ## Time schedules (`TimeSchedule`, `GreenhouseManager.is_time_in_schedule`) -/

/-- A validated `TimeSchedule` (pydantic model in
`greenhouse_manager_settings.py`).  Times of day are seconds since
midnight. -/
structure TimeSchedule where
  enabled : Bool
  start_time : ℕ
  end_time : ℕ
  deriving Repr, DecidableEq

/-- The pydantic field validator `TimeSchedule.validate_time_range`
(greenhouse_manager_settings.py lines 70–76): raises `ValueError` when
`end_time` equals the already-validated `start_time`, otherwise accepts the
value. -/
def TimeSchedule.validate_time_range (start_time end_time : ℕ) :
    Except String ℕ :=
  if end_time = start_time then
    .error "end_time must be different from start_time"
  else
    .ok end_time

/-- Construction of a `TimeSchedule` through the pydantic validators:
the model is produced only when `validate_time_range` accepts `end_time`. -/
def TimeSchedule.construct (enabled : Bool) (start_time end_time : ℕ) :
    Except String TimeSchedule :=
  match TimeSchedule.validate_time_range start_time end_time with
  | .error e => .error e
  | .ok v => .ok ⟨enabled, start_time, v⟩

/-- `GreenhouseManager.is_time_in_schedule` (greenhouse_manager.py lines
222–243): disabled schedules are never active; otherwise, with
`start ≤ end`, active iff `start ≤ now ≤ end`; with `start > end`
(crossing midnight), active iff `now ≥ start or now ≤ end`.
`current_time` stands for `datetime.now().time()`. -/
def is_time_in_schedule (current_time : ℕ) (schedule : TimeSchedule) : Bool :=
  if !schedule.enabled then
    false
  else
    let start := schedule.start_time
    let stop := schedule.end_time
    if start ≤ stop then
      decide (start ≤ current_time ∧ current_time ≤ stop)
    else
      decide (current_time ≥ start ∨ current_time ≤ stop)

/-! ## Data logger (`greenhouse_data_logger.py`) -/

/-- One row of the daily DataFrame, as assembled by
`GreenhouseDataLogger.log_data` (the `record` dict, lines 167–178).  The
`timestamp`/`date`/`time_24hr` string columns are derived from the row's
instant; we keep the instant itself (epoch seconds). -/
structure Reading where
  timestamp : ℤ
  temperature_celsius : ℚ
  humidity_percent : ℚ
  pressure_hpa : ℚ
  heater_state : Bool
  vent_fan_state : Bool
  grow_lights_state : Bool
  stand_fan_state : Bool
  deriving Repr, DecidableEq

/-- The logger's resident state for one calendar day, together with the
ordered list of snapshots it has persisted (`_save_daily_log` calls):
`current_dataframe` is `self._current_dataframe` (loaded rows plus
appended rows), `saves` records each persisted DataFrame in order. -/
structure LoggerDayState where
  current_dataframe : List Reading
  saves : List (List Reading)
  deriving Repr, DecidableEq

/-- The same-date path of `GreenhouseDataLogger.log_data`
(greenhouse_data_logger.py lines 191–197): append the record to the
resident DataFrame, then persist whenever
`len(self._current_dataframe) % 10 == 0`. -/
def log_data (st : LoggerDayState) (r : Reading) : LoggerDayState :=
  let df := st.current_dataframe ++ [r]
  if df.length % 10 = 0 then
    { current_dataframe := df, saves := st.saves ++ [df] }
  else
    { st with current_dataframe := df }

/-- `GreenhouseDataLogger.flush` (lines 199–206): persist the resident
DataFrame unconditionally when it is non-empty. -/
def flush (st : LoggerDayState) : LoggerDayState :=
  if st.current_dataframe = [] then st
  else { st with saves := st.saves ++ [st.current_dataframe] }

/-- A run of `log_data` over a list of readings, in order. -/
def run_log (st : LoggerDayState) : List Reading → LoggerDayState
  | [] => st
  | r :: rs => run_log (log_data st r) rs

/-- The logger state right after `_load_daily_log` returned `loaded`
(either the persisted file's rows or the empty DataFrame): no save has yet
been made for the day. -/
def loaded_state (loaded : List Reading) : LoggerDayState :=
  ⟨loaded, []⟩

/-! ### Statistics (`GreenhouseDataLogger.get_statistics`) -/

/-- `pandas.Series.min` over a non-empty column. -/
def colMin : List ℚ → ℚ
  | [] => 0
  | x :: xs => xs.foldl min x

/-- `pandas.Series.max` over a non-empty column. -/
def colMax : List ℚ → ℚ
  | [] => 0
  | x :: xs => xs.foldl max x

/-- `pandas.Series.mean`: arithmetic mean. -/
def colMean (xs : List ℚ) : ℚ :=
  xs.sum / xs.length

/-- `pandas.Series.std` (default `ddof=1`), represented by its square: the
sample variance with `N − 1` denominator; `none` models the `NaN` that
pandas reports when fewer than two samples are present.  The reported
standard deviation is the (irrational) square root of this value, which
the value below determines. -/
def colStdSq (xs : List ℚ) : Option ℚ :=
  if xs.length ≤ 1 then none
  else some ((xs.map (fun x => (x - colMean xs) ^ 2)).sum / (xs.length - 1))

/-- The four aggregates computed per measured column. -/
structure ColumnStats where
  minV : ℚ
  maxV : ℚ
  mean : ℚ
  stdSq : Option ℚ
  deriving Repr, DecidableEq

/-- Aggregates of one column of the day's DataFrame. -/
def columnStats (xs : List ℚ) : ColumnStats :=
  ⟨colMin xs, colMax xs, colMean xs, colStdSq xs⟩

/-- `data[col].sum() / len(data) * 100` for a boolean device-state column:
percentage of records in which the device was on. -/
def uptimePercent (states : List Bool) : ℚ :=
  ((states.countP id : ℚ) / states.length) * 100

/-- The dictionary built by `GreenhouseDataLogger.get_statistics`
(lines 315–342). -/
structure Statistics where
  record_count : ℕ
  temperature : ColumnStats
  humidity : ColumnStats
  pressure : ColumnStats
  heater_percent : ℚ
  vent_fan_percent : ℚ
  grow_lights_percent : ℚ
  stand_fan_percent : ℚ
  deriving Repr, DecidableEq

/-- `GreenhouseDataLogger.get_statistics` (lines 300–344): `data` is the
result of `get_data_for_date(date)` (`none` when the file is absent or
unreadable); the function returns `None` when that result is `None` or the
DataFrame is empty, and otherwise the per-column aggregates and per-device
uptime percentages. -/
def get_statistics (data : Option (List Reading)) : Option Statistics :=
  match data with
  | none => none
  | some rows =>
    if rows = [] then none
    else
      some
        { record_count := rows.length
          temperature := columnStats (rows.map (·.temperature_celsius))
          humidity := columnStats (rows.map (·.humidity_percent))
          pressure := columnStats (rows.map (·.pressure_hpa))
          heater_percent := uptimePercent (rows.map (·.heater_state))
          vent_fan_percent := uptimePercent (rows.map (·.vent_fan_state))
          grow_lights_percent := uptimePercent (rows.map (·.grow_lights_state))
          stand_fan_percent := uptimePercent (rows.map (·.stand_fan_state)) }

/-! ### Retention cleanup (`GreenhouseDataLogger.cleanup_old_logs`) -/

/-- A persisted log file as seen by the cleanup scan: its name together
with the result of
`datetime.strptime(log_file.stem.split('_')[-1], "%Y-%m-%d")` — `some`
the parsed date (midnight, epoch seconds) for a well-formed
`greenhouse_log_YYYY-MM-DD` name, `none` when `strptime` raises. -/
structure LogFile where
  name : String
  parsed_date : Option ℤ
  deriving Repr, DecidableEq

/-- `GreenhouseDataLogger.cleanup_old_logs` (lines 246–272): `now` is
`datetime.now()` in epoch seconds, the cutoff is
`now - timedelta(days=max_log_days)`.  Each file whose parsed date is
strictly before the cutoff is unlinked; a file whose name fails to parse
raises inside the per-file `try`, is logged, and the scan continues.
Returns the retained files and the `removed_count`. -/
def cleanup_old_logs (now : ℤ) (max_log_days : ℕ) :
    List LogFile → List LogFile × ℕ
  | [] => ([], 0)
  | f :: fs =>
    let (rest, cnt) := cleanup_old_logs now max_log_days fs
    match f.parsed_date with
    | some d =>
      if d < now - max_log_days * 86400 then (rest, cnt + 1)
      else (f :: rest, cnt)
    | none => (f :: rest, cnt)

/-! ### Range queries (`GreenhouseDataLogger.get_date_range_data`) -/

/-- The `while current_date <= end_date` loop of `get_date_range_data`
(lines 285–292) over `storage`, the `get_data_for_date` view of the
persisted files (dates are day numbers).  Returns the collected non-empty
daily DataFrames (`all_data`) and the list of dates actually read. -/
def range_loop (storage : ℤ → Option (List Reading)) (current_date end_date : ℤ) :
    List (List Reading) × List ℤ :=
  if current_date ≤ end_date then
    let daily := storage current_date
    let rest := range_loop storage (current_date + 1) end_date
    match daily with
    | some d => if d = [] then (rest.1, current_date :: rest.2)
                else (d :: rest.1, current_date :: rest.2)
    | none => (rest.1, current_date :: rest.2)
  else ([], [])
  termination_by (end_date + 1 - current_date).toNat
  decreasing_by
    simp_wf
    omega

/-- `GreenhouseDataLogger.get_date_range_data` (lines 274–298): the
concatenation of the non-empty daily results, or `None` when `all_data`
stayed empty; also returns the dates read from storage. -/
def get_date_range_data (storage : ℤ → Option (List Reading))
    (start_date end_date : ℤ) : Option (List Reading) × List ℤ :=
  let (all_data, reads) := range_loop storage start_date end_date
  if all_data = [] then (none, reads)
  else (some all_data.flatten, reads)

/-! ## Legacy control loop (`driver.py`, class `Greenhouse`) -/

/-- `DESIRED_TEMP` (driver.py line 22). -/
def DESIRED_TEMP : ℚ := 66

/-- `TEMP_MARGIN` (driver.py line 23). -/
def TEMP_MARGIN : ℚ := 4

/-- `DESIRED_HUMIDITY` (driver.py line 20). -/
def DESIRED_HUMIDITY : ℚ := 80

/-- `HUMIDITY_MARGIN` (driver.py line 21). -/
def HUMIDITY_MARGIN : ℚ := 5

/-- `SWITCH_TIMEOUT = 5 * 60` seconds (driver.py line 29). -/
def SWITCH_TIMEOUT : ℤ := 5 * 60

/-- A `switch_status` entry of `Greenhouse`: `False` after `switch_off`,
or the `update_val` stored by `switch_on` — a positive epoch timestamp for
a manual/button activation, `-1` for an automatic activation. -/
inductive SwitchStatus where
  | off
  | on (marker : ℤ)
  deriving Repr, DecidableEq

/-- `True` on a marker recording a manual/override activation. -/
def SwitchStatus.is_manual_on : SwitchStatus → Bool
  | .off => false
  | .on m => decide (0 < m)

/-- The `switch_status` dictionary of `Greenhouse` after `initialize()`. -/
structure DriverState where
  heater : SwitchStatus
  vent_fan : SwitchStatus
  grow_light : SwitchStatus
  stand_fan : SwitchStatus
  deriving Repr, DecidableEq

/-- The per-device override test of `Greenhouse.main` (driver.py lines
148–153): `status is not False and status > 0 and now - status >
SWITCH_TIMEOUT`. -/
def override_expired (now : ℤ) : SwitchStatus → Bool
  | .off => false
  | .on m => decide (0 < m ∧ SWITCH_TIMEOUT < now - m)

/-- The "Read Switch Over-ride" block at the top of each `Greenhouse.main`
iteration: force-off the heater, then the vent fan, when their manual
activation has outlived `SWITCH_TIMEOUT`.  The grow light and stand fan
are not examined. -/
def override_phase (now : ℤ) (s : DriverState) : DriverState :=
  let s1 := if override_expired now s.heater then { s with heater := .off } else s
  if override_expired now s1.vent_fan then { s1 with vent_fan := .off } else s1

/-- The temperature/humidity block of `Greenhouse.main` (driver.py lines
155–165): `switch_on('Heater', update_val=-1)` when the average
temperature is below `DESIRED_TEMP + TEMP_MARGIN`; else
`switch_on('VentFan', update_val=-1)` when it is above that bound or the
humidity is above `DESIRED_HUMIDITY - HUMIDITY_MARGIN`; else switch both
off when not already `False`. -/
def temperature_phase (average_temp average_humidity : ℚ)
    (s : DriverState) : DriverState :=
  if average_temp < DESIRED_TEMP + TEMP_MARGIN then
    { s with heater := .on (-1) }
  else if average_temp > DESIRED_TEMP + TEMP_MARGIN ∨
      average_humidity > DESIRED_HUMIDITY - HUMIDITY_MARGIN then
    { s with vent_fan := .on (-1) }
  else
    let s1 := if s.heater ≠ .off then { s with heater := .off } else s
    if s1.vent_fan ≠ .off then { s1 with vent_fan := .off } else s1

/-- One iteration of the `while True` loop of `Greenhouse.main` (driver.py
lines 145–170): the override-timeout block, then the automatic
temperature/humidity control. -/
def driver_tick (now : ℤ) (average_temp average_humidity : ℚ)
    (s : DriverState) : DriverState :=
  temperature_phase average_temp average_humidity (override_phase now s)

/-! ## RF outlets (`greenhouse_hardware_collection.py`, class `RFOutlet`) -/

/-- Outcome of the `subprocess.run(["../../rfoutlet/codesend", code])`
call inside `_execute_rf_command`. -/
inductive RFCommandOutcome where
  | success
  | fileNotFound
  | calledProcessError
  | unexpectedError
  deriving Repr, DecidableEq

/-- The `print` calls of `RFOutlet`, as observable log events. -/
inductive RFLogEvent where
  | mockExec
  | commandOutput
  | errorCommandNotFound
  | errorCalledProcess
  | errorUnexpected
  | turningOn
  | turningOff
  deriving Repr, DecidableEq

/-- The fields of `RFOutlet` relevant to state tracking. -/
structure RFOutletState where
  mock_mode : Bool
  state : Bool
  deriving Repr, DecidableEq

/-- `RFOutlet._execute_rf_command` (lines 195–212): in mock mode only a
print; otherwise the `codesend` subprocess runs and *every* failure —
`FileNotFoundError`, `CalledProcessError`, any other `Exception` — is
caught inside this method and merely printed, so the method always
returns normally. -/
def execute_rf_command (o : RFOutletState) (outcome : RFCommandOutcome) :
    List RFLogEvent :=
  if o.mock_mode then [.mockExec]
  else
    match outcome with
    | .success => [.commandOutput]
    | .fileNotFound => [.errorCommandNotFound]
    | .calledProcessError => [.errorCalledProcess]
    | .unexpectedError => [.errorUnexpected]

/-- `RFOutlet.turn_on` (lines 214–220): print, fire the RF command (whose
failures are swallowed), then set `self._state = True` unconditionally. -/
def RFOutlet.turn_on (o : RFOutletState) (outcome : RFCommandOutcome) :
    RFOutletState × List RFLogEvent :=
  ({ o with state := true }, .turningOn :: execute_rf_command o outcome)

/-- `RFOutlet.turn_off` (lines 222–228): print, fire the RF command (whose
failures are swallowed), then set `self._state = False` unconditionally. -/
def RFOutlet.turn_off (o : RFOutletState) (outcome : RFCommandOutcome) :
    RFOutletState × List RFLogEvent :=
  ({ o with state := false }, .turningOff :: execute_rf_command o outcome)

/-- The log event `_execute_rf_command` prints for a failing outcome. -/
def rf_error_event : RFCommandOutcome → Option RFLogEvent
  | .success => none
  | .fileNotFound => some .errorCommandNotFound
  | .calledProcessError => some .errorCalledProcess
  | .unexpectedError => some .errorUnexpected

/-! ## Configuration load and reload (`GreenhouseManager`) -/

/-- The validated settings consumed by the manager; for the reload claims
only the identity of the active snapshot matters, so we carry the two
validated substructures already modelled. -/
structure SettingsModel where
  temperature_control : TemperatureControl
  grow_lights_schedule : TimeSchedule
  deriving Repr, DecidableEq

/-- Result of opening, JSON-decoding and pydantic-validating the
configuration file. -/
inductive ConfigReadResult where
  | fileNotFound
  | jsonDecodeError
  | validationError
  | ok (s : SettingsModel)
  deriving Repr, DecidableEq

/-- How a Python call returns: normally, raising an `Exception`, or
raising `SystemExit` (what `sys.exit` does — `SystemExit` derives from
`BaseException`, not `Exception`). -/
inductive PyOutcome where
  | normal
  | exceptionRaised
  | systemExit (code : ℕ)
  deriving Repr, DecidableEq

/-- The manager field mutated by configuration loading. -/
structure ManagerConfigState where
  settings : Option SettingsModel
  deriving Repr, DecidableEq

/-- `GreenhouseManager.load_configuration` (greenhouse_manager.py lines
91–111): on success assign `self.settings`; on `FileNotFoundError`,
`json.JSONDecodeError` or any validation `Exception`, print an error and
call `sys.exit(1)` — raising `SystemExit`, never an `Exception`. -/
def load_configuration (m : ManagerConfigState) (file : ConfigReadResult) :
    ManagerConfigState × PyOutcome :=
  match file with
  | .ok s => ({ settings := some s }, .normal)
  | .fileNotFound => (m, .systemExit 1)
  | .jsonDecodeError => (m, .systemExit 1)
  | .validationError => (m, .systemExit 1)

/-- `GreenhouseManager.on_config_changed` (lines 211–220): call
`load_configuration` inside `try ... except Exception`; the handler logs
and returns normally, but it only catches `Exception` — a `SystemExit`
raised inside `load_configuration` propagates out of the callback. -/
def on_config_changed (m : ManagerConfigState) (file : ConfigReadResult) :
    ManagerConfigState × PyOutcome :=
  match load_configuration m file with
  | (m', .exceptionRaised) => (m', .normal)
  | (m', out) => (m', out)

end GreenhousePi

namespace GreenhousePi

/-! ## Theorems: temperature hysteresis, schedule windows, construction -/

/-- The heater flag after `control_temperature` only depends on the heater
band: the vent-fan branch writes only the `vent_fan` field.  Both `turn_on`
calls (guarded by `not get_state()`) leave the flag `true`, both `turn_off`
calls leave it `false`. -/
theorem control_temperature_heater_eq
    (tc : TemperatureControl) (t : ℚ) (s : TempOutlets)
    (henab : tc.heater_enabled = true) :
    (control_temperature tc t s).heater =
      (if t < tc.target_temp_celsius - tc.temp_tolerance_celsius then
        true
      else if tc.target_temp_celsius < t then
        false
      else s.heater) := by
  rcases s with ⟨h, v⟩
  unfold control_temperature
  simp only [henab, if_true]
  rcases h with _ | _ <;> split_ifs <;> simp_all

/-- C2: with heater control enabled (and the pydantic-validated bound
`temp_tolerance_celsius ≥ 0`), the temperature-control step turns the
heater on (off → on) iff `t < target − tolerance` and it was off; turns it
off (on → off) iff `t > target` and it was on; and inside the dead band
`target − tolerance ≤ t ≤ target` the heater state is unchanged. -/
theorem control_temperature_heater_hysteresis
    (tc : TemperatureControl) (t : ℚ) (s : TempOutlets)
    (henab : tc.heater_enabled = true)
    (htol : 0 ≤ tc.temp_tolerance_celsius) :
    (((control_temperature tc t s).heater = true ∧ s.heater = false) ↔
      (t < tc.target_temp_celsius - tc.temp_tolerance_celsius ∧
        s.heater = false)) ∧
    (((control_temperature tc t s).heater = false ∧ s.heater = true) ↔
      (tc.target_temp_celsius < t ∧ s.heater = true)) ∧
    (tc.target_temp_celsius - tc.temp_tolerance_celsius ≤ t →
      t ≤ tc.target_temp_celsius →
      (control_temperature tc t s).heater = s.heater) := by
  rw [control_temperature_heater_eq tc t s henab]
  split_ifs with h1 h2
  · refine ⟨by simp [h1], ?_, ?_⟩
    · have hngt : ¬ tc.target_temp_celsius < t := by linarith
      simp [hngt]
    · intro hge _
      exact absurd h1 (not_lt.mpr hge)
  · refine ⟨by simp [h1], by simp [h2], ?_⟩
    intro _ hle
    exact absurd h2 (not_lt.mpr hle)
  · refine ⟨?_, ?_, fun _ _ => rfl⟩
    · cases hs : s.heater <;> simp [h1, hs]
    · cases hs : s.heater <;> simp [h2, hs]

/-- Witness for `control_temperature_heater_hysteresis` at target 24,
tolerance 2, temperature 20, heater initially off: the heater is switched
on. -/
theorem control_temperature_heater_hysteresis_witness :
    ((control_temperature ⟨24, 2, true, true⟩ 20 ⟨false, false⟩).heater
        = true ∧ (false : Bool) = false) ↔
      ((20 : ℚ) < 24 - 2 ∧ (false : Bool) = false) :=
  (control_temperature_heater_hysteresis ⟨24, 2, true, true⟩ 20
    ⟨false, false⟩ rfl (by norm_num)).1

/-- C3: `is_time_in_schedule` is active exactly when the schedule is
enabled and the current time lies in the (inclusive-on-both-ends) window:
for `start ≤ end` the window is `[start, end]`, for `start > end` it wraps
midnight (`now ≥ start ∨ now ≤ end`); a disabled window is never active. -/
theorem is_time_in_schedule_spec (now : ℕ) (s : TimeSchedule) :
    is_time_in_schedule now s = true ↔
      (s.enabled = true ∧
        if s.start_time ≤ s.end_time then
          s.start_time ≤ now ∧ now ≤ s.end_time
        else
          now ≥ s.start_time ∨ now ≤ s.end_time) := by
  rcases s with ⟨e, a, b⟩
  rcases e with _ | _ <;> simp [is_time_in_schedule]

/-- C7: constructing a `TimeSchedule` with `end_time = start_time` fails
with the `ValueError` of `validate_time_range`, for every time value and
either value of `enabled`: a zero-length window is never representable. -/
theorem timeschedule_equal_times_rejected (enabled : Bool) (T : ℕ) :
    TimeSchedule.construct enabled T T =
      .error "end_time must be different from start_time" := by
  simp [TimeSchedule.construct, TimeSchedule.validate_time_range]

/-! ## Theorems: data-logger save cadence -/

/-- A sample reading used in concrete scenarios. -/
def r0 : Reading :=
  ⟨0, 20, 50, 1000, false, false, false, false⟩

/-- The saves the code's cadence produces along a run: a snapshot is
persisted after an append exactly when the *total* resident length
(`loaded + appended so far`) is a multiple of 10. -/
def expected_saves (c : List Reading) : List Reading → List (List Reading)
  | [] => []
  | r :: rs =>
    (if (c.length + 1) % 10 = 0 then [c ++ [r]] else []) ++
      expected_saves (c ++ [r]) rs

/-- Running `log_data` over a list of readings appends them all to the
resident DataFrame and persists exactly the `expected_saves` snapshots. -/
theorem run_log_eq (rs : List Reading) :
    ∀ (c : List Reading) (sv : List (List Reading)),
      run_log ⟨c, sv⟩ rs = ⟨c ++ rs, sv ++ expected_saves c rs⟩ := by
  induction rs with
  | nil =>
    intro c sv
    simp [run_log, expected_saves]
  | cons r rs ih =>
    intro c sv
    have hc : (c ++ [r]).length = c.length + 1 := by simp
    by_cases h : (c.length + 1) % 10 = 0
    · rw [run_log, log_data]
      simp only [hc, if_pos h]
      rw [ih]
      simp [expected_saves, h]
    · rw [run_log, log_data]
      simp only [hc, if_neg h]
      rw [ih]
      simp [expected_saves, h]

set_option maxRecDepth 8000 in
/-- C4 (counterexample): when the resident DailyLog was loaded from a file
already holding 5 records, the 5th append — not a multiple of 10 counted
since load — already triggers a persisted save, because the code tests
`len(self._current_dataframe) % 10 == 0` on the *total* length. -/
theorem log_cadence_counterexample :
    (run_log (loaded_state (List.replicate 5 r0))
        (List.replicate 5 r0)).saves = [List.replicate 10 r0] ∧
      ¬ (5 % 10 = 0) := by
  decide

set_option maxRecDepth 16000 in
/-- C4 (amended): the resident DataFrame accumulates every append, and a
snapshot is persisted after an append exactly when the total resident
record count (loaded + appended) is a multiple of 10; starting from an
empty log, 25 appends therefore produce exactly the two intermediate
saves at records 10 and 20, and a following `flush` persists all 25. -/
theorem log_cadence_amended (init rs : List Reading) :
    (run_log (loaded_state init) rs).current_dataframe = init ++ rs ∧
    (run_log (loaded_state init) rs).saves = expected_saves init rs ∧
    (flush (run_log (loaded_state []) (List.replicate 25 r0))).saves =
      [List.replicate 10 r0, List.replicate 20 r0, List.replicate 25 r0] := by
  refine ⟨?_, ?_, ?_⟩
  · rw [loaded_state, run_log_eq]
  · rw [loaded_state, run_log_eq]
    simp
  · decide

/-! ## Theorems: statistics -/

/-- The example day: three readings at 20 °C, 22 °C, 24 °C, the heater on
in exactly one of the three records. -/
def ex_rows : List Reading :=
  [⟨0, 20, 50, 1000, true, false, false, false⟩,
   ⟨60, 22, 50, 1000, false, false, false, false⟩,
   ⟨120, 24, 50, 1000, false, false, false, false⟩]

/-- C8: `get_statistics` returns `None` exactly when the persisted data is
absent or empty; the temperature standard deviation is `NaN` (modelled
`none`) exactly on a single-sample day; and on the example day
[20 °C, 22 °C, 24 °C] it reports min 20, max 22 + 2, mean 22, squared
sample standard deviation 4 (N − 1 denominator), and a heater uptime of
100/3 percent for a device on in 1 of 3 records. -/
theorem get_statistics_spec :
    (∀ d, get_statistics d = none ↔ (d = none ∨ d = some [])) ∧
    (∀ rows : List Reading,
      (get_statistics (some rows)).map (fun s => s.temperature.stdSq)
          = some none ↔ rows.length = 1) ∧
    ((get_statistics (some ex_rows)).map (fun s =>
        (s.temperature.minV, s.temperature.maxV, s.temperature.mean,
          s.temperature.stdSq, s.heater_percent))
      = some (20, 24, 22, some 4, 100 / 3)) := by
  refine ⟨?_, ?_, ?_⟩
  · intro d
    match d with
    | none => simp [get_statistics]
    | some rows =>
      by_cases h : rows = [] <;> simp [get_statistics, h]
  · intro rows
    match rows with
    | [] => simp [get_statistics]
    | [x] => simp [get_statistics, columnStats, colStdSq]
    | x :: y :: l =>
      simp [get_statistics, columnStats, colStdSq]
  · norm_num [get_statistics, ex_rows, columnStats, colMin, colMax, colMean,
      colStdSq, uptimePercent, min_def, max_def, List.countP, List.countP.go]
    exact ⟨_, ⟨by simp, rfl⟩, rfl, rfl, rfl, rfl, rfl⟩

/-! ## Theorems: retention cleanup -/

/-- C9: `cleanup_old_logs` retains exactly the files whose parsed date is
at or after the cutoff `now − max_log_days` (deleting exactly the strictly
older ones) together with every file whose name does not parse; in
particular a file dated exactly `max_log_days` old is retained, and a
malformed filename is skipped while the scan continues over the rest. -/
theorem cleanup_old_logs_spec (now : ℤ) (max_log_days : ℕ)
    (files : List LogFile) :
    (cleanup_old_logs now max_log_days files).1 =
      files.filter (fun f =>
        match f.parsed_date with
        | some d => decide (now - max_log_days * 86400 ≤ d)
        | none => true) ∧
    (∀ f ∈ files, f.parsed_date = some (now - max_log_days * 86400) →
      f ∈ (cleanup_old_logs now max_log_days files).1) ∧
    (∀ f ∈ files, f.parsed_date = none →
      f ∈ (cleanup_old_logs now max_log_days files).1) := by
  have hfilter : (cleanup_old_logs now max_log_days files).1 =
      files.filter (fun f =>
        match f.parsed_date with
        | some d => decide (now - max_log_days * 86400 ≤ d)
        | none => true) := by
    induction files with
    | nil => rfl
    | cons f fs ih =>
      rw [cleanup_old_logs]
      match hf : f.parsed_date with
      | some d =>
        by_cases hd : d < now - max_log_days * 86400
        · simp [hf, hd, List.filter, ih, not_le.mpr hd]
        · simp [hf, hd, List.filter, ih, not_lt.mp hd]
      | none => simp [hf, List.filter, ih]
  refine ⟨hfilter, ?_, ?_⟩
  · intro f hmem hdate
    rw [hfilter, List.mem_filter]
    exact ⟨hmem, by simp [hdate]⟩
  · intro f hmem hdate
    rw [hfilter, List.mem_filter]
    exact ⟨hmem, by simp [hdate]⟩

/-- Witness for `cleanup_old_logs_spec`: with `now = 86400·100` (midnight
of day 100) and a 30-day retention, a scan over a boundary file dated day
70, a malformed file, and an old file dated day 69 keeps the first two and
removes the third. -/
theorem cleanup_old_logs_spec_witness :
    (cleanup_old_logs (86400 * 100) 30
        [⟨"greenhouse_log_day70.parquet", some (86400 * 70)⟩,
         ⟨"greenhouse_log_bad.parquet", none⟩,
         ⟨"greenhouse_log_day69.parquet", some (86400 * 69)⟩]).1 =
      [⟨"greenhouse_log_day70.parquet", some (86400 * 70)⟩,
       ⟨"greenhouse_log_bad.parquet", none⟩] ∧
    (⟨"greenhouse_log_day70.parquet", some (86400 * 70)⟩ : LogFile) ∈
      (cleanup_old_logs (86400 * 100) 30
        [⟨"greenhouse_log_day70.parquet", some (86400 * 70)⟩,
         ⟨"greenhouse_log_bad.parquet", none⟩,
         ⟨"greenhouse_log_day69.parquet", some (86400 * 69)⟩]).1 := by
  refine ⟨?_, ?_⟩
  · rw [(cleanup_old_logs_spec (86400 * 100) 30 _).1]
    decide
  · exact (cleanup_old_logs_spec (86400 * 100) 30 _).2.1 _ (by decide)
      (by decide)

/-! ## Theorems: range queries -/

/-- C10: when `start_date` is strictly after `end_date`, the
`while current_date <= end_date` loop never runs: `get_date_range_data`
returns `None` and reads no file at all. -/
theorem get_date_range_data_empty_range
    (storage : ℤ → Option (List Reading)) (start_date end_date : ℤ)
    (h : end_date < start_date) :
    get_date_range_data storage start_date end_date = (none, []) := by
  have hloop : range_loop storage start_date end_date = ([], []) := by
    rw [range_loop]
    simp [not_le.mpr h]
  simp [get_date_range_data, hloop]

/-- Witness for `get_date_range_data_empty_range`: a storage holding data
on every day, queried with `start = 5 > 3 = end`, yields `None` without a
single read. -/
theorem get_date_range_data_empty_range_witness :
    get_date_range_data (fun _ => some [r0]) 5 3 = (none, []) :=
  get_date_range_data_empty_range (fun _ => some [r0]) 5 3 (by norm_num)

/-! ## Theorems: manual-override auto-timeout -/

/-- The temperature phase never leaves a device manually on when it
entered the phase switched off: the heater can only be re-activated with
the automatic marker `-1`, and likewise the vent fan. -/
theorem temperature_phase_not_manual (t h : ℚ) (s : DriverState) :
    (s.heater = .off →
      ((temperature_phase t h s).heater).is_manual_on = false) ∧
    (s.vent_fan = .off →
      ((temperature_phase t h s).vent_fan).is_manual_on = false) := by
  unfold temperature_phase
  constructor <;> intro hh <;> split_ifs <;>
    first
      | (simp_all [SwitchStatus.is_manual_on]; done)
      | (by_cases hv : s.vent_fan = SwitchStatus.off <;>
          by_cases hh2 : s.heater = SwitchStatus.off <;>
          simp_all [SwitchStatus.is_manual_on])

/-- C1 (counterexample): the grow light is a controllable device of the
loop, yet a manual activation of it (positive timestamp marker 100) that
expired long ago (tick at `now = 1000`, `1000 − 100 > 300`) is left
switched on with its manual marker intact — only the heater and vent fan
are examined by the override-timeout block. -/
theorem manual_override_timeout_counterexample :
    0 < (100 : ℤ) ∧ SWITCH_TIMEOUT < 1000 - 100 ∧
    (driver_tick 1000 60 50 ⟨.off, .off, .on 100, .off⟩).grow_light
      = .on 100 := by
  refine ⟨by norm_num, by norm_num [SWITCH_TIMEOUT], ?_⟩
  have h60 : (60 : ℚ) < DESIRED_TEMP + TEMP_MARGIN := by
    norm_num [DESIRED_TEMP, TEMP_MARGIN]
  simp [driver_tick, override_phase, temperature_phase, override_expired,
    h60]

/-- C1 (amended): only the heater and the vent fan are subject to the
5-minute manual-override timeout.  For those two devices the rule holds:
when the stored on-cause is a positive (manual) timestamp older than
`SWITCH_TIMEOUT`, the tick's override block force-offs the device before
any sensor logic runs, and after the whole tick the device is never left
manually on (the automatic logic may re-activate it, but only with the
automatic marker `-1`). -/
theorem manual_override_timeout_amended (now : ℤ) (t h : ℚ)
    (s : DriverState) :
    (∀ m, s.heater = .on m → 0 < m → SWITCH_TIMEOUT < now - m →
      (override_phase now s).heater = .off ∧
        ((driver_tick now t h s).heater).is_manual_on = false) ∧
    (∀ m, s.vent_fan = .on m → 0 < m → SWITCH_TIMEOUT < now - m →
      (override_phase now s).vent_fan = .off ∧
        ((driver_tick now t h s).vent_fan).is_manual_on = false) := by
  constructor
  · intro m hm hp ht
    have hme : override_expired now s.heater = true := by
      simp [override_expired, hm]
      exact ⟨hp, ht⟩
    have hph : (override_phase now s).heater = .off := by
      unfold override_phase
      simp only [hme, if_true]
      split_ifs <;> rfl
    exact ⟨hph, (temperature_phase_not_manual t h (override_phase now s)).1 hph⟩
  · intro m hm hp ht
    have hve : override_expired now s.vent_fan = true := by
      simp [override_expired, hm]
      exact ⟨hp, ht⟩
    have hph : (override_phase now s).vent_fan = .off := by
      unfold override_phase
      split_ifs <;> simp_all
    exact ⟨hph, (temperature_phase_not_manual t h (override_phase now s)).2 hph⟩

/-- Witness for `manual_override_timeout_amended`: heater manually on
since 100, tick at 1000 (expired by 600 s): force-off in the override
block, and no manual-on heater after the tick. -/
theorem manual_override_timeout_amended_witness :
    (override_phase 1000 ⟨.on 100, .on 100, .off, .off⟩).heater = .off ∧
      ((driver_tick 1000 60 50
          ⟨.on 100, .on 100, .off, .off⟩).heater).is_manual_on = false :=
  (manual_override_timeout_amended 1000 60 50
    ⟨.on 100, .on 100, .off, .off⟩).1 100 rfl (by decide) (by decide)

/-! ## Theorems: outlet-command failure -/

/-- C5 (counterexample): a real-mode outlet whose `codesend` command fails
with `CalledProcessError` still gets its recorded `_state` flag flipped to
`True` by `turn_on` — the failure is only printed inside
`_execute_rf_command`, which swallows it, and `turn_on` assigns
`self._state = True` unconditionally. -/
theorem rf_failure_state_counterexample :
    (RFOutlet.turn_on ⟨false, false⟩ .calledProcessError).1.state = true ∧
    (RFOutlet.turn_on ⟨false, false⟩ .calledProcessError).2 =
      [.turningOn, .errorCalledProcess] := by
  decide

/-- C5 (amended): an outlet-command failure is logged (the matching error
print appears in the event log), but `turn_on`/`turn_off` update the
recorded state flag unconditionally — to `True` resp. `False` whether or
not the underlying hardware call failed. -/
theorem rf_state_update_amended (o : RFOutletState)
    (outcome : RFCommandOutcome) :
    (RFOutlet.turn_on o outcome).1.state = true ∧
    (RFOutlet.turn_off o outcome).1.state = false ∧
    (∀ ev, o.mock_mode = false → rf_error_event outcome = some ev →
      ev ∈ (RFOutlet.turn_on o outcome).2 ∧
        ev ∈ (RFOutlet.turn_off o outcome).2) := by
  refine ⟨rfl, rfl, ?_⟩
  intro ev hmock hev
  rcases outcome <;>
    simp_all [rf_error_event, RFOutlet.turn_on, RFOutlet.turn_off,
      execute_rf_command]

/-- Witness for `rf_state_update_amended`: a real-mode outlet whose
command fails with `FileNotFoundError` logs the missing-command error on
both `turn_on` and `turn_off`. -/
theorem rf_state_update_amended_witness :
    RFLogEvent.errorCommandNotFound ∈
        (RFOutlet.turn_on ⟨false, false⟩ .fileNotFound).2 ∧
      RFLogEvent.errorCommandNotFound ∈
        (RFOutlet.turn_off ⟨false, false⟩ .fileNotFound).2 :=
  (rf_state_update_amended ⟨false, false⟩ .fileNotFound).2.2 _ rfl rfl

/-! ## Theorems: configuration reload -/

/-- C6: at reload, an invalid configuration leaves the previously active
settings in place, but the rejection is *not* handled non-fatally:
`load_configuration` answers every failure with `sys.exit(1)`, and the
resulting `SystemExit` is not an `Exception`, so the
`except Exception` handler of `on_config_changed` never engages and the
`SystemExit` propagates out of the reload callback (a successful reload,
by contrast, swaps the settings and returns normally). -/
theorem reload_invalid_config_exits (s0 : SettingsModel) :
    on_config_changed ⟨some s0⟩ .jsonDecodeError
        = (⟨some s0⟩, .systemExit 1) ∧
    on_config_changed ⟨some s0⟩ .validationError
        = (⟨some s0⟩, .systemExit 1) ∧
    (∀ s1, on_config_changed ⟨some s0⟩ (.ok s1) = (⟨some s1⟩, .normal)) :=
  ⟨rfl, rfl, fun _ => rfl⟩

end GreenhousePi
